import Mathlib

/-!
Verification of the nature-asia backend against its specification.

The definitions below are shallow embeddings of the JavaScript services:
`v2vService.js` (vehicle registry, nearby-vehicle query, emergency broadcast,
vehicle status), `dataUpdateJob.js` (periodic status sweep),
`disasterService.js` (feed aggregation, weather severity),
`analyticsService.js` (trend and hotspot helpers) and the chat-history
delete route in `routes/chat.js`.

JavaScript numbers used in geometric formulas are modelled as real numbers;
numbers appearing only in decidable threshold arithmetic are modelled as
rationals.  Firestore collections are modelled as association lists from
document id to document.  External I/O (Firestore reads/writes, HTTP feeds,
the Gemini API) is modelled by passing the fetched value in as an argument
and returning the written documents in the result.
-/

open Real

/-! ### v2vService.js : geometry -/

/-- JavaScript `Math.atan2(y, x)` on real numbers. -/
noncomputable def jsAtan2 (y x : ℝ) : ℝ :=
  if 0 < x then Real.arctan (y / x)
  else if x < 0 then
    if 0 ≤ y then Real.arctan (y / x) + π
    else Real.arctan (y / x) - π
  else
    if 0 < y then π / 2
    else if y < 0 then -(π / 2)
    else 0

/-- `v2vService.calculateDistance` (v2vService.js lines 400-410): haversine
distance in kilometers with Earth radius 6371 km. -/
noncomputable def calculateDistance (lat1 lon1 lat2 lon2 : ℝ) : ℝ :=
  let earthR : ℝ := 6371
  let dLat := (lat2 - lat1) * π / 180
  let dLon := (lon2 - lon1) * π / 180
  let a := Real.sin (dLat / 2) * Real.sin (dLat / 2) +
    Real.cos (lat1 * π / 180) * Real.cos (lat2 * π / 180) *
    (Real.sin (dLon / 2) * Real.sin (dLon / 2))
  let c := 2 * jsAtan2 (Real.sqrt a) (Real.sqrt (1 - a))
  earthR * c

/-- A vehicle document's stored coordinates. -/
structure Location where
  latitude : ℝ
  longitude : ℝ

/-- A vehicle document (the fields the nearby query reads). -/
structure Vehicle where
  location : Location
  status : String

/-- The `vehicles` collection: document id paired with document data. -/
abbrev VehicleStore := List (String × Vehicle)

/-- `firestore.collection('vehicles').doc(vehicleId).get()`. -/
def lookupVehicle (store : VehicleStore) (vehicleId : String) : Option Vehicle :=
  (store.find? (fun p => p.1 == vehicleId)).map Prod.snd

/-- One entry of the list returned by `getNearbyVehicles`. -/
structure NearbyVehicle where
  vehicleId : String
  vehicle : Vehicle
  distance : ℝ

/-- The successful payload of `getNearbyVehicles`. -/
structure NearbyResult where
  data : List NearbyVehicle
  count : ℕ
  radius : ℝ

/-- `v2vService.getNearbyVehicles` (v2vService.js lines 219-282).
`none` models the `success:false` "Vehicle not found" return.  The Firestore
bounding-box query plus `status == 'active'` filter is the list filter; the
loop body refines by exact haversine distance and drops the reference
vehicle itself.  `Math.round(distance*100)/100` is the stored distance. -/
noncomputable def getNearbyVehicles (store : VehicleStore) (vehicleId : String)
    (radiusKm : ℝ) : Option NearbyResult :=
  match lookupVehicle store vehicleId with
  | none => none
  | some vehicleData =>
    let latitude := vehicleData.location.latitude
    let longitude := vehicleData.location.longitude
    let latRange := radiusKm / 111
    let lngRange := radiusKm / (111 * Real.cos (latitude * π / 180))
    let minLat := latitude - latRange
    let maxLat := latitude + latRange
    let minLng := longitude - lngRange
    let maxLng := longitude + lngRange
    let snapshot := store.filter (fun p =>
      decide (minLat ≤ p.2.location.latitude) &&
      decide (p.2.location.latitude ≤ maxLat) &&
      decide (minLng ≤ p.2.location.longitude) &&
      decide (p.2.location.longitude ≤ maxLng) &&
      (p.2.status == "active"))
    let nearbyVehicles := snapshot.filterMap (fun p =>
      if p.1 ≠ vehicleId then
        let d := calculateDistance latitude longitude
          p.2.location.latitude p.2.location.longitude
        if d ≤ radiusKm then
          some { vehicleId := p.1, vehicle := p.2,
                 distance := ((round (d * 100) : ℤ) : ℝ) / 100 }
        else none
      else none)
    some { data := nearbyVehicles, count := nearbyVehicles.length, radius := radiusKm }

/-! ### Vehicle status from elapsed minutes -/

/-- Status computed by `v2vService.getVehicleStatus` (v2vService.js lines
376-381) from the elapsed minutes since `lastSeen`. -/
noncomputable def getVehicleStatusOf (timeDiff : ℝ) : String :=
  if timeDiff > 30 then "inactive"
  else if timeDiff > 10 then "warning"
  else "active"

/-- Status computed by the periodic sweep `dataUpdateJob.updateVehicleStatus`
(dataUpdateJob.js lines 178-183) from the elapsed minutes since `lastSeen`. -/
noncomputable def updateVehicleStatusNew (timeDiff : ℝ) : String :=
  if timeDiff > 30 then "inactive"
  else if timeDiff > 10 then "warning"
  else "active"

/-! ### C1 : entries of the nearby query are within the radius and never the
reference vehicle itself -/

/-- C1: for every reference vehicle with stored coordinates and every radius
`radiusKm`, the list returned by `getNearbyVehicles` contains no entry whose
haversine distance (as computed by `calculateDistance`) from the reference
coordinates exceeds `radiusKm`, and never contains an entry whose document id
equals the reference vehicle's own id. -/
theorem getNearbyVehicles_within_radius (store : VehicleStore) (vehicleId : String)
    (radiusKm : ℝ) (ref : Vehicle) (href : lookupVehicle store vehicleId = some ref)
    (res : NearbyResult) (hres : getNearbyVehicles store vehicleId radiusKm = some res)
    (e : NearbyVehicle) (he : e ∈ res.data) :
    calculateDistance ref.location.latitude ref.location.longitude
      e.vehicle.location.latitude e.vehicle.location.longitude ≤ radiusKm ∧
    e.vehicleId ≠ vehicleId := by
  unfold getNearbyVehicles at hres
  rw [href] at hres
  simp only [Option.some.injEq] at hres
  subst hres
  simp only at he
  obtain ⟨p, _hp, hpe⟩ := List.mem_filterMap.mp he
  by_cases hid : p.1 ≠ vehicleId
  · rw [if_pos hid] at hpe
    by_cases hd : calculateDistance ref.location.latitude ref.location.longitude
        p.2.location.latitude p.2.location.longitude ≤ radiusKm
    · rw [if_pos hd] at hpe
      cases hpe
      exact ⟨hd, hid⟩
    · rw [if_neg hd] at hpe
      cases hpe
  · rw [if_neg hid] at hpe
    cases hpe

/-! ### Concrete store used to witness the nearby-query theorems -/

/-- An active vehicle stored at coordinates (0, 0). -/
noncomputable def vehicleAtOrigin : Vehicle :=
  { location := { latitude := 0, longitude := 0 }, status := "active" }

/-- A store with two active vehicles at the same point. -/
noncomputable def twinStore : VehicleStore :=
  [("vA", vehicleAtOrigin), ("vB", vehicleAtOrigin)]

/-- The entry the nearby query at `"vA"` produces for `"vB"`. -/
noncomputable def twinEntry : NearbyVehicle :=
  { vehicleId := "vB", vehicle := vehicleAtOrigin, distance := 0 }

theorem calculateDistance_self (lat lon : ℝ) : calculateDistance lat lon lat lon = 0 := by
  simp [calculateDistance, jsAtan2]

theorem twinLookup : lookupVehicle twinStore "vA" = some vehicleAtOrigin := by
  simp [lookupVehicle, twinStore, List.find?]

theorem twinEval : getNearbyVehicles twinStore "vA" 50 =
    some { data := [twinEntry], count := 1, radius := 50 } := by
  unfold getNearbyVehicles
  rw [twinLookup]
  have hne : ("vB" : String) ≠ "vA" := by decide
  have hself : ¬ (("vA" : String) ≠ "vA") := by decide
  simp only [vehicleAtOrigin, twinStore, twinEntry, List.filter]
  norm_num [List.filterMap_cons, calculateDistance_self, hne, hself]

/-- Witness for C1: instantiated at the twin store with radius 50. -/
theorem getNearbyVehicles_within_radius_witness :
    calculateDistance vehicleAtOrigin.location.latitude vehicleAtOrigin.location.longitude
      twinEntry.vehicle.location.latitude twinEntry.vehicle.location.longitude ≤ 50 ∧
    twinEntry.vehicleId ≠ "vA" :=
  getNearbyVehicles_within_radius twinStore "vA" 50 vehicleAtOrigin twinLookup
    { data := [twinEntry], count := 1, radius := 50 } twinEval twinEntry
    (List.mem_singleton.mpr rfl)

/-! ### C3 : status as a function of elapsed minutes -/

/-- C3 counterexample: at exactly 10 elapsed minutes the claim demands
"warning" (10 ≤ t ≤ 30), but both code paths compute "active". -/
theorem vehicleStatus_at_ten_minutes :
    getVehicleStatusOf 10 = "active" ∧ updateVehicleStatusNew 10 = "active" ∧
    getVehicleStatusOf 10 ≠ "warning" ∧ (10 : ℝ) ≥ 10 ∧ (10 : ℝ) ≤ 30 := by
  refine ⟨by norm_num [getVehicleStatusOf], by norm_num [updateVehicleStatusNew],
    ?_, by norm_num, by norm_num⟩
  norm_num [getVehicleStatusOf]
  decide

/-- C3 amended: the status is the same deterministic function of the elapsed
minutes on the read path and the periodic sweep, with boundaries
"active" iff t ≤ 10, "warning" iff 10 < t ≤ 30, "inactive" iff t > 30. -/
theorem vehicleStatus_characterization (t : ℝ) :
    getVehicleStatusOf t = updateVehicleStatusNew t ∧
    (getVehicleStatusOf t = "active" ↔ t ≤ 10) ∧
    (getVehicleStatusOf t = "warning" ↔ 10 < t ∧ t ≤ 30) ∧
    (getVehicleStatusOf t = "inactive" ↔ 30 < t) := by
  unfold getVehicleStatusOf updateVehicleStatusNew
  split_ifs with h1 h2 <;>
    refine ⟨rfl, ?_, ?_, ?_⟩ <;>
    simp only [String.reduceEq, false_iff, true_iff, iff_false, iff_true,
      not_and, not_lt, not_le] <;>
    first
      | decide
      | linarith
      | (intro h; linarith)
      | (constructor <;> linarith)

/-! ### C10 : completeness of the bounding-box pre-filter -/

/-- Reference vehicle stored just short of the north pole. -/
noncomputable def nearPoleVehicle : Vehicle :=
  { location := { latitude := 89.7, longitude := 0 }, status := "active" }

/-- An active vehicle stored at the north pole, longitude 170. -/
noncomputable def atPoleVehicle : Vehicle :=
  { location := { latitude := 90, longitude := 170 }, status := "active" }

/-- Store holding the reference vehicle and the vehicle at the pole. -/
noncomputable def poleStore : VehicleStore :=
  [("v0", nearPoleVehicle), ("v1", atPoleVehicle)]

theorem poleLookup : lookupVehicle poleStore "v0" = some nearPoleVehicle := by
  simp [lookupVehicle, poleStore, List.find?]

theorem cos_near_pole : Real.cos ((89.7 : ℝ) * π / 180) = Real.sin (π / 600) := by
  rw [show (89.7 : ℝ) * π / 180 = π / 2 - π / 600 by ring_nf]
  exact Real.cos_pi_div_two_sub _

theorem sin_pi_div_600_pos : 0 < Real.sin (π / 600) := by
  apply Real.sin_pos_of_pos_of_lt_pi
  · positivity
  · have := Real.pi_pos; linarith

theorem sin_pi_div_600_lb : 5 / 1887 < Real.sin (π / 600) := by
  have hx0 : (0 : ℝ) < π / 600 := by positivity
  have hx1 : π / 600 ≤ 1 := by have := Real.pi_lt_d2; linarith
  have hcube := Real.sin_gt_sub_cube hx0 hx1
  have hub : π / 600 ≤ 0.00525 := by have := Real.pi_lt_d2; linarith
  have hlb : (0.00523 : ℝ) ≤ π / 600 := by have := Real.pi_gt_d2; linarith
  have hpow : (π / 600) ^ 3 ≤ (0.00525 : ℝ) ^ 3 :=
    pow_le_pow_left₀ (le_of_lt hx0) hub 3
  nlinarith [hcube, hpow, hlb]

/-- The haversine distance from (89.7, 0) to the pole point (90, 170) is
6371·π/600 ≈ 33.4 km, inside a 50 km radius. -/
theorem calculateDistance_nearPole_atPole : calculateDistance 89.7 0 90 170 ≤ 50 := by
  unfold calculateDistance
  simp only []
  have harg : ((90 : ℝ) - 89.7) * π / 180 / 2 = π / 1200 := by ring_nf
  have hpi2 : (90 : ℝ) * π / 180 = π / 2 := by ring_nf
  rw [harg, hpi2, Real.cos_pi_div_two]
  have ht0 : (0 : ℝ) < π / 1200 := by positivity
  have ht1 : π / 1200 < π / 2 := by
    have := Real.pi_pos
    linarith
  have hs : 0 ≤ Real.sin (π / 1200) :=
    Real.sin_nonneg_of_nonneg_of_le_pi (le_of_lt ht0)
      (by have := Real.pi_pos; linarith)
  have hc : 0 < Real.cos (π / 1200) :=
    Real.cos_pos_of_mem_Ioo ⟨by have := Real.pi_pos; linarith, ht1⟩
  have ha : Real.sin (π / 1200) * Real.sin (π / 1200) +
      Real.cos (89.7 * π / 180) * 0 *
      (Real.sin ((170 - 0) * π / 180 / 2) * Real.sin ((170 - 0) * π / 180 / 2)) =
      Real.sin (π / 1200) * Real.sin (π / 1200) := by ring
  rw [ha]
  have hsq : Real.sqrt (Real.sin (π / 1200) * Real.sin (π / 1200)) = Real.sin (π / 1200) :=
    Real.sqrt_mul_self hs
  have hone : 1 - Real.sin (π / 1200) * Real.sin (π / 1200) =
      Real.cos (π / 1200) * Real.cos (π / 1200) := by
    have := Real.sin_sq_add_cos_sq (π / 1200)
    nlinarith [this]
  have hsqc : Real.sqrt (1 - Real.sin (π / 1200) * Real.sin (π / 1200)) =
      Real.cos (π / 1200) := by
    rw [hone]; exact Real.sqrt_mul_self (le_of_lt hc)
  rw [hsq, hsqc]
  have hatan : jsAtan2 (Real.sin (π / 1200)) (Real.cos (π / 1200)) = π / 1200 := by
    unfold jsAtan2
    rw [if_pos hc]
    rw [← Real.tan_eq_sin_div_cos]
    exact Real.arctan_tan (by have := Real.pi_pos; linarith) ht1
  rw [hatan]
  have := Real.pi_lt_d2
  nlinarith [Real.pi_pos]

theorem lngRange_pos_pole : 0 < 50 / (111 * Real.sin (π / 600)) := by
  have := sin_pi_div_600_pos; positivity

/-- The nearby query at the near-pole reference returns no vehicles: the
longitude pre-filter excludes the pole vehicle. -/
theorem poleEval : getNearbyVehicles poleStore "v0" 50 =
    some { data := [], count := 0, radius := 50 } := by
  unfold getNearbyVehicles
  rw [poleLookup]
  simp only [poleStore, nearPoleVehicle, atPoleVehicle]
  simp only [cos_near_pole]
  have hpos := lngRange_pos_pole
  have h1 : (89.7 : ℝ) - 50 / 111 ≤ 89.7 := by norm_num
  have h2 : (89.7 : ℝ) ≤ 89.7 + 50 / 111 := by norm_num
  have h3 : (0 : ℝ) - 50 / (111 * Real.sin (π / 600)) ≤ 0 := by linarith
  have h4 : (0 : ℝ) ≤ 0 + 50 / (111 * Real.sin (π / 600)) := by linarith
  have h8 : ¬ ((170 : ℝ) ≤ 0 + 50 / (111 * Real.sin (π / 600))) := by
    have hs := sin_pi_div_600_lb
    have hs0 := sin_pi_div_600_pos
    have hlt : 50 / (111 * Real.sin (π / 600)) < 170 := by
      rw [div_lt_iff₀ (by positivity)]
      nlinarith
    linarith
  simp only [List.filter_cons, List.filter_nil, Bool.and_eq_true, decide_eq_true_eq,
    beq_iff_eq]
  rw [if_pos ⟨⟨⟨⟨h1, h2⟩, h3⟩, h4⟩, trivial⟩]
  rw [if_neg (fun hc => h8 hc.1.2)]
  simp only [List.filterMap_cons, List.filterMap_nil]
  rw [if_neg (show ¬ (("v0" : String) ≠ "v0") by simp)]
  rfl

/-- C10 counterexample: the vehicle `"v1"` at the pole is stored, active,
distinct from the reference `"v0"`, and within haversine distance 50 km of
the reference, yet `getNearbyVehicles` at radius 50 returns the empty list:
the bounding box (111 km per degree) does not contain the whole 50 km disc
near the pole. -/
theorem nearby_query_misses_pole_vehicle :
    calculateDistance nearPoleVehicle.location.latitude nearPoleVehicle.location.longitude
      atPoleVehicle.location.latitude atPoleVehicle.location.longitude ≤ 50 ∧
    atPoleVehicle.status = "active" ∧
    ("v1", atPoleVehicle) ∈ poleStore ∧
    "v1" ≠ "v0" ∧
    getNearbyVehicles poleStore "v0" 50 = some { data := [], count := 0, radius := 50 } := by
  refine ⟨?_, rfl, by simp [poleStore], by decide, poleEval⟩
  simp only [nearPoleVehicle, atPoleVehicle]
  exact calculateDistance_nearPole_atPole

/-- C10 amended: every stored active vehicle other than the reference whose
coordinates lie inside the computed bounding box and whose haversine distance
is at most the radius (distance exactly equal to the radius included) appears
in the returned list; completeness relative to the full disc fails near the
poles, as witnessed by `nearby_query_misses_pole_vehicle`. -/
theorem getNearbyVehicles_complete_in_box (store : VehicleStore) (vehicleId : String)
    (radiusKm : ℝ) (ref : Vehicle) (href : lookupVehicle store vehicleId = some ref)
    (res : NearbyResult) (hres : getNearbyVehicles store vehicleId radiusKm = some res)
    (vid : String) (v : Vehicle) (hv : (vid, v) ∈ store) (hne : vid ≠ vehicleId)
    (hact : v.status = "active")
    (hlat1 : ref.location.latitude - radiusKm / 111 ≤ v.location.latitude)
    (hlat2 : v.location.latitude ≤ ref.location.latitude + radiusKm / 111)
    (hlng1 : ref.location.longitude -
      radiusKm / (111 * Real.cos (ref.location.latitude * π / 180)) ≤ v.location.longitude)
    (hlng2 : v.location.longitude ≤ ref.location.longitude +
      radiusKm / (111 * Real.cos (ref.location.latitude * π / 180)))
    (hdist : calculateDistance ref.location.latitude ref.location.longitude
      v.location.latitude v.location.longitude ≤ radiusKm) :
    ∃ e ∈ res.data, e.vehicleId = vid ∧ e.vehicle = v := by
  unfold getNearbyVehicles at hres
  rw [href] at hres
  simp only [Option.some.injEq] at hres
  subst hres
  refine ⟨{ vehicleId := vid, vehicle := v,
            distance := ((round (calculateDistance ref.location.latitude ref.location.longitude
              v.location.latitude v.location.longitude * 100) : ℤ) : ℝ) / 100 }, ?_, rfl, rfl⟩
  simp only
  apply List.mem_filterMap.mpr
  refine ⟨(vid, v), ?_, ?_⟩
  · exact List.mem_filter.mpr ⟨hv, by
      simp only [Bool.and_eq_true, decide_eq_true_eq, beq_iff_eq]
      exact ⟨⟨⟨⟨hlat1, hlat2⟩, hlng1⟩, hlng2⟩, hact⟩⟩
  · rw [if_pos hne, if_pos hdist]

/-- Witness for the amended C10 theorem at the twin store. -/
theorem getNearbyVehicles_complete_in_box_witness :
    ∃ e ∈ ({ data := [twinEntry], count := 1, radius := 50 } : NearbyResult).data,
      e.vehicleId = "vB" ∧ e.vehicle = vehicleAtOrigin :=
  getNearbyVehicles_complete_in_box twinStore "vA" 50 vehicleAtOrigin twinLookup
    _ twinEval "vB" vehicleAtOrigin (by simp [twinStore]) (by decide) rfl
    (by norm_num [vehicleAtOrigin])
    (by norm_num [vehicleAtOrigin])
    (by norm_num [vehicleAtOrigin, Real.cos_zero])
    (by norm_num [vehicleAtOrigin, Real.cos_zero])
    (by norm_num [vehicleAtOrigin, calculateDistance_self])

/-! ### C2 : emergency broadcast fan-out -/

/-- The caller-supplied emergency payload (routes/v2v emergency endpoint):
`{ emergencyType, description, severity, location, senderInfo }`. -/
structure EmergencyData where
  emergencyType : String
  description : String
  severity : String
  location : Option Location
  senderInfoVehicleId : String
  senderInfoUserId : String

/-- A document of the `v2v_messages` collection as written by the broadcast
path.  `targetVehicleId`/`idField` are `none` when the field is absent. -/
structure V2VMessage where
  senderVehicleId : String
  type : String
  priority : String
  emergencyType : String
  description : String
  severity : String
  location : Option Location
  senderInfoVehicleId : String
  senderInfoUserId : String
  timestamp : ℤ
  status : String
  targetVehicleId : Option String
  idField : Option String

/-- The master message built by `broadcastEmergencyMessage` (v2vService.js
lines 315-322): `{ senderVehicleId, type:'emergency', priority:'high',
...emergencyData, timestamp, status:'broadcast' }` with no target id. -/
noncomputable def broadcastMaster (senderVehicleId : String) (e : EmergencyData)
    (now : ℤ) : V2VMessage :=
  { senderVehicleId := senderVehicleId
    type := "emergency"
    priority := "high"
    emergencyType := e.emergencyType
    description := e.description
    severity := e.severity
    location := e.location
    senderInfoVehicleId := e.senderInfoVehicleId
    senderInfoUserId := e.senderInfoUserId
    timestamp := now
    status := "broadcast"
    targetVehicleId := none
    idField := none }

/-- The value returned by `broadcastEmergencyMessage`. -/
structure BroadcastResult where
  success : Bool
  broadcastCount : ℕ

/-- `v2vService.broadcastEmergencyMessage` (v2vService.js lines 313-357).
`messages` is the `v2v_messages` collection before the call and the second
component of the result is the collection afterwards.  `newId i` models the
fresh document id Firestore generates for the i-th batch write. -/
noncomputable def broadcastEmergencyMessage (store : VehicleStore)
    (messages : List V2VMessage) (senderVehicleId : String) (e : EmergencyData)
    (now : ℤ) (newId : ℕ → String) : BroadcastResult × List V2VMessage :=
  let message := broadcastMaster senderVehicleId e now
  let afterMaster := messages ++ [message]
  match getNearbyVehicles store senderVehicleId 50 with
  | some nearbyVehicles =>
    let copies := nearbyVehicles.data.enum.map (fun iv =>
      { message with targetVehicleId := some iv.2.vehicleId, idField := some (newId iv.1) })
    ({ success := true, broadcastCount := nearbyVehicles.count }, afterMaster ++ copies)
  | none =>
    ({ success := true, broadcastCount := 0 }, afterMaster)

theorem getNearbyVehicles_count (store : VehicleStore) (vehicleId : String)
    (radiusKm : ℝ) (res : NearbyResult)
    (h : getNearbyVehicles store vehicleId radiusKm = some res) :
    res.count = res.data.length := by
  unfold getNearbyVehicles at h
  cases hl : lookupVehicle store vehicleId with
  | none => rw [hl] at h; cases h
  | some ref =>
    rw [hl] at h
    simp only [Option.some.injEq] at h
    subst h
    rfl

/-- C2: when the nearby query at the fixed 50 km radius succeeds with M
recipients, the broadcast appends exactly M+1 documents to `v2v_messages`:
one master with no `targetVehicleId` followed by one copy per recipient
carrying that recipient's vehicle id, and `broadcastCount` equals M. -/
theorem broadcastEmergencyMessage_fanout (store : VehicleStore)
    (messages : List V2VMessage) (sender : String) (e : EmergencyData) (now : ℤ)
    (newId : ℕ → String) (nearby : NearbyResult)
    (h : getNearbyVehicles store sender 50 = some nearby) :
    (broadcastEmergencyMessage store messages sender e now newId).2 =
      messages ++ broadcastMaster sender e now ::
        nearby.data.enum.map (fun iv =>
          { broadcastMaster sender e now with
              targetVehicleId := some iv.2.vehicleId, idField := some (newId iv.1) }) ∧
    (broadcastEmergencyMessage store messages sender e now newId).2.length =
      messages.length + (nearby.data.length + 1) ∧
    (broadcastMaster sender e now).targetVehicleId = none ∧
    (nearby.data.enum.map (fun iv =>
        { broadcastMaster sender e now with
            targetVehicleId := some iv.2.vehicleId, idField := some (newId iv.1) })).map
      (fun m => m.targetVehicleId) = nearby.data.map (fun v => some v.vehicleId) ∧
    (broadcastEmergencyMessage store messages sender e now newId).1.broadcastCount =
      nearby.data.length := by
  unfold broadcastEmergencyMessage
  rw [h]
  simp only []
  refine ⟨by simp, ?_, rfl, ?_, ?_⟩
  · simp only [List.length_append, List.length_map, List.enum_length,
      List.length_cons, List.length_nil]
    omega
  · simp only [List.map_map]
    have : ((fun m : V2VMessage => m.targetVehicleId) ∘ (fun iv : ℕ × NearbyVehicle =>
        { broadcastMaster sender e now with
            targetVehicleId := some iv.2.vehicleId, idField := some (newId iv.1) })) =
        (fun iv : ℕ × NearbyVehicle => some iv.2.vehicleId) := rfl
    rw [this]
    have h2 : (fun iv : ℕ × NearbyVehicle => some iv.2.vehicleId) =
        ((fun v : NearbyVehicle => some v.vehicleId) ∘ Prod.snd) := rfl
    rw [h2, ← List.map_map, List.enum_map_snd]
  · exact getNearbyVehicles_count store sender 50 nearby h

/-- A concrete emergency payload used by the C2 witness. -/
noncomputable def sampleEmergency : EmergencyData :=
  { emergencyType := "flood"
    description := "road under water"
    severity := "high"
    location := none
    senderInfoVehicleId := "vA"
    senderInfoUserId := "user1" }

/-- Witness for C2 at the twin store: one recipient, so two stored documents
and broadcastCount 1. -/
theorem broadcastEmergencyMessage_fanout_witness :
    (broadcastEmergencyMessage twinStore [] "vA" sampleEmergency 0 (fun _ => "doc1")).2 =
      [] ++ broadcastMaster "vA" sampleEmergency 0 ::
        ({ data := [twinEntry], count := 1, radius := 50 } : NearbyResult).data.enum.map
          (fun iv => { broadcastMaster "vA" sampleEmergency 0 with
              targetVehicleId := some iv.2.vehicleId,
              idField := some ((fun _ : ℕ => "doc1") iv.1) }) ∧
    (broadcastEmergencyMessage twinStore [] "vA" sampleEmergency 0 (fun _ => "doc1")).2.length =
      ([] : List V2VMessage).length +
        (({ data := [twinEntry], count := 1, radius := 50 } : NearbyResult).data.length + 1) ∧
    (broadcastMaster "vA" sampleEmergency 0).targetVehicleId = none ∧
    (({ data := [twinEntry], count := 1, radius := 50 } : NearbyResult).data.enum.map
        (fun iv => { broadcastMaster "vA" sampleEmergency 0 with
            targetVehicleId := some iv.2.vehicleId,
            idField := some ((fun _ : ℕ => "doc1") iv.1) })).map
      (fun m => m.targetVehicleId) =
      ({ data := [twinEntry], count := 1, radius := 50 } : NearbyResult).data.map
        (fun v => some v.vehicleId) ∧
    (broadcastEmergencyMessage twinStore [] "vA" sampleEmergency 0 (fun _ => "doc1")).1.broadcastCount =
      ({ data := [twinEntry], count := 1, radius := 50 } : NearbyResult).data.length :=
  broadcastEmergencyMessage_fanout twinStore [] "vA" sampleEmergency 0 (fun _ => "doc1")
    { data := [twinEntry], count := 1, radius := 50 } twinEval

/-! ### C6 : chat-history delete authorization (routes/chat.js lines 738-773) -/

/-- A `chat_history` document (the field the route checks plus payload). -/
structure ChatDoc where
  userId : String
  content : String
deriving DecidableEq

/-- The `chat_history` collection. -/
abbrev ChatStore := List (String × ChatDoc)

/-- JSON envelope plus HTTP status produced by the route. -/
structure ApiResponse where
  status : ℕ
  success : Bool
  error : Option String
  message : Option String
deriving DecidableEq

/-- `DELETE /api/chat/history/:id` for an authenticated user with uid `uid`:
look the document up; 404 when absent; 403 and no write when the stored
`userId` differs from `uid`; otherwise delete the document and return 200. -/
def deleteChatHistory (store : ChatStore) (id uid : String) : ApiResponse × ChatStore :=
  match (store.find? (fun p => p.1 == id)).map Prod.snd with
  | none =>
    ({ status := 404, success := false,
       error := some "Chat history entry not found", message := none }, store)
  | some doc =>
    if doc.userId ≠ uid then
      ({ status := 403, success := false,
         error := some "Unauthorized to delete this entry", message := none }, store)
    else
      ({ status := 200, success := true, error := none,
         message := some "Chat history entry deleted successfully" },
       store.eraseP (fun p => p.1 == id))

/-- C6: deleting a chat-history entry owned by a different user yields
HTTP 403 with `success:false` and the authorization error, and leaves the
collection unchanged; moreover any call that changes the collection was for
a document whose stored `userId` equals the requester's uid. -/
theorem deleteChatHistory_unauthorized (store : ChatStore) (id uid : String)
    (doc : ChatDoc) (hdoc : (store.find? (fun p => p.1 == id)).map Prod.snd = some doc)
    (hne : doc.userId ≠ uid) :
    (deleteChatHistory store id uid).1.status = 403 ∧
    (deleteChatHistory store id uid).1.success = false ∧
    (deleteChatHistory store id uid).1.error = some "Unauthorized to delete this entry" ∧
    (deleteChatHistory store id uid).2 = store ∧
    (∀ (s : ChatStore) (i u : String), (deleteChatHistory s i u).2 ≠ s →
      ∃ d, (s.find? (fun p => p.1 == i)).map Prod.snd = some d ∧ d.userId = u) := by
  unfold deleteChatHistory
  rw [hdoc]
  simp only []
  rw [if_pos hne]
  refine ⟨rfl, rfl, rfl, rfl, ?_⟩
  intro s i u hchanged
  cases hfind : (s.find? (fun p => p.1 == i)).map Prod.snd with
  | none => rw [hfind] at hchanged; exact absurd rfl hchanged
  | some d =>
    rw [hfind] at hchanged
    simp only [] at hchanged
    by_cases hu : d.userId ≠ u
    · rw [if_pos hu] at hchanged; exact absurd rfl hchanged
    · exact ⟨d, rfl, not_not.mp hu⟩

/-- A chat-history store with one entry owned by `"alice"`. -/
def sampleChatStore : ChatStore := [("c1", { userId := "alice", content := "hello" })]

/-- Witness for C6: `"bob"` tries to delete `"alice"`'s entry. -/
theorem deleteChatHistory_unauthorized_witness :
    (deleteChatHistory sampleChatStore "c1" "bob").1.status = 403 ∧
    (deleteChatHistory sampleChatStore "c1" "bob").1.success = false ∧
    (deleteChatHistory sampleChatStore "c1" "bob").1.error =
      some "Unauthorized to delete this entry" ∧
    (deleteChatHistory sampleChatStore "c1" "bob").2 = sampleChatStore ∧
    (∀ (s : ChatStore) (i u : String), (deleteChatHistory s i u).2 ≠ s →
      ∃ d, (s.find? (fun p => p.1 == i)).map Prod.snd = some d ∧ d.userId = u) :=
  deleteChatHistory_unauthorized sampleChatStore "c1" "bob"
    { userId := "alice", content := "hello" } rfl (by decide)

/-! ### C7 : AI-enhancement fallback (v2vService.js lines 134-191 and
geminiService.enhanceV2VMessage) -/

/-- The value `geminiService.enhanceV2VMessage` resolves to: either
`success:true` with the enhanced text and insights, or `success:false`. -/
structure AIResponse where
  success : Bool
  enhancedMessage : String
  insights : String
  error : String

/-- The `messageData` argument built by `processTextMessageWithAI` for
`sendV2VTextMessage`. -/
structure TextMessageData where
  targetVehicleId : String
  message : String
  type : String
  priority : String
  aiEnhanced : Bool
  originalMessage : String
  aiInsights : Option String
  senderInfoVehicleId : String
  senderInfoUserId : Option String

/-- A text document of `v2v_messages` as written by `sendV2VTextMessage`:
`{ senderVehicleId, ...messageData, timestamp, status:'sent', type:'text' }`
(the trailing `type:'text'` overrides any `type` in the data). -/
structure TextMessage where
  senderVehicleId : String
  targetVehicleId : String
  message : String
  type : String
  priority : String
  aiEnhanced : Bool
  originalMessage : String
  aiInsights : Option String
  senderInfoVehicleId : String
  senderInfoUserId : Option String
  timestamp : ℤ
  status : String

/-- Result envelope of the send path. -/
structure SendResult where
  success : Bool
  messageId : Option String

/-- `v2vService.sendV2VTextMessage` (v2vService.js lines 101-131) restricted
to its effect on the `v2v_messages` collection; `newId` is the generated
document id. -/
def sendV2VTextMessage (messages : List TextMessage) (senderVehicleId : String)
    (m : TextMessageData) (now : ℤ) (newId : String) : SendResult × List TextMessage :=
  let message : TextMessage :=
    { senderVehicleId := senderVehicleId
      targetVehicleId := m.targetVehicleId
      message := m.message
      type := "text"
      priority := m.priority
      aiEnhanced := m.aiEnhanced
      originalMessage := m.originalMessage
      aiInsights := m.aiInsights
      senderInfoVehicleId := m.senderInfoVehicleId
      senderInfoUserId := m.senderInfoUserId
      timestamp := now
      status := "sent" }
  ({ success := true, messageId := some newId }, messages ++ [message])

/-- `v2vService.processTextMessageWithAI` (v2vService.js lines 134-191).
The vehicle-info lookups only feed the prompt of the external AI call, whose
resolved value is the `aiResponse` argument.  On `success:false` the original
message is sent unchanged with `aiEnhanced:false`; on success the enhanced
text is sent with `aiEnhanced:true`. -/
def processTextMessageWithAI (messages : List TextMessage)
    (senderVehicleId targetVehicleId originalMessage : String)
    (userId : Option String) (aiResponse : AIResponse) (now : ℤ) (newId : String) :
    SendResult × List TextMessage :=
  if !aiResponse.success then
    sendV2VTextMessage messages senderVehicleId
      { targetVehicleId := targetVehicleId
        message := originalMessage
        type := "text"
        priority := "medium"
        aiEnhanced := false
        originalMessage := originalMessage
        aiInsights := none
        senderInfoVehicleId := senderVehicleId
        senderInfoUserId := userId } now newId
  else
    sendV2VTextMessage messages senderVehicleId
      { targetVehicleId := targetVehicleId
        message := aiResponse.enhancedMessage
        type := "text"
        priority := "medium"
        aiEnhanced := true
        originalMessage := originalMessage
        aiInsights := some aiResponse.insights
        senderInfoVehicleId := senderVehicleId
        senderInfoUserId := userId } now newId

/-- C7: when AI enhancement fails the operation still succeeds and stores
exactly the caller's original text with `aiEnhanced:false` and
`originalMessage` equal to it; the enhanced text is stored only when
enhancement succeeds. -/
theorem processTextMessageWithAI_fallback (messages : List TextMessage)
    (sender target original : String) (userId : Option String)
    (aiR : AIResponse) (now : ℤ) (newId : String) :
    (aiR.success = false →
      (processTextMessageWithAI messages sender target original userId aiR now newId).1.success
        = true ∧
      ∃ doc, (processTextMessageWithAI messages sender target original userId aiR now newId).2
          = messages ++ [doc] ∧
        doc.message = original ∧ doc.aiEnhanced = false ∧ doc.originalMessage = original) ∧
    (aiR.success = true →
      ∃ doc, (processTextMessageWithAI messages sender target original userId aiR now newId).2
          = messages ++ [doc] ∧
        doc.message = aiR.enhancedMessage ∧ doc.aiEnhanced = true ∧
        doc.originalMessage = original) := by
  constructor
  · intro h
    unfold processTextMessageWithAI sendV2VTextMessage
    rw [h]
    exact ⟨rfl, _, rfl, rfl, rfl, rfl⟩
  · intro h
    unfold processTextMessageWithAI sendV2VTextMessage
    rw [h]
    exact ⟨_, rfl, rfl, rfl, rfl⟩

/-- Witness for C7: a failing AI response falls back to the original text. -/
theorem processTextMessageWithAI_fallback_witness :
    (processTextMessageWithAI [] "vA" "vB" "pull over" none
        { success := false, enhancedMessage := "", insights := "", error := "quota" }
        0 "m1").1.success = true ∧
    ∃ doc, (processTextMessageWithAI [] "vA" "vB" "pull over" none
        { success := false, enhancedMessage := "", insights := "", error := "quota" }
        0 "m1").2 = [] ++ [doc] ∧
      doc.message = "pull over" ∧ doc.aiEnhanced = false ∧
      doc.originalMessage = "pull over" :=
  (processTextMessageWithAI_fallback [] "vA" "vB" "pull over" none
    { success := false, enhancedMessage := "", insights := "", error := "quota" }
    0 "m1").1 rfl

/-! ### C5 : weather severity classification (disasterService.js) -/

/-- Containment test on character lists: does the needle occur contiguously
inside the haystack?  This is JavaScript `String.prototype.includes`. -/
def listContainsSub (sub : List Char) : List Char → Bool
  | [] => sub.isEmpty
  | c :: cs => sub.isPrefixOf (c :: cs) || listContainsSub sub cs

/-- JavaScript `s.includes(sub)`. -/
def jsIncludes (s sub : String) : Bool :=
  listContainsSub sub.toList s.toList

/-- JavaScript `s.toLowerCase()` restricted to ASCII (the provider's
condition strings are ASCII). -/
def jsToLower (s : String) : String :=
  ⟨s.data.map Char.toLower⟩

/-- The fields of an OpenWeatherMap observation read by the severity
heuristics: `wind?.speed` (absent wind modelled as `none`), `main.temp`,
`main.humidity`, `weather[0].main` and `weather[0].description`. -/
structure WeatherData where
  windSpeed : Option ℚ
  temp : ℚ
  humidity : ℚ
  weatherMain : String
  weatherDescription : String

/-- `disasterService.getWeatherSeverity` (disasterService.js lines 342-361). -/
def getWeatherSeverity (w : WeatherData) : String :=
  let windSpeed := w.windSpeed.getD 0
  let temperature := w.temp
  let weatherCondition := jsToLower w.weatherMain
  let description := jsToLower w.weatherDescription
  if windSpeed > 20.8 ∨ temperature > 45 ∨ temperature < -30 then "critical"
  else if jsIncludes weatherCondition "tornado" || jsIncludes weatherCondition "hurricane" then
    "critical"
  else if windSpeed > 13.9 ∨ temperature > 40 ∨ temperature < -20 then "high"
  else if jsIncludes weatherCondition "thunderstorm" && jsIncludes description "heavy" then
    "high"
  else if windSpeed > 10.8 ∨ temperature > 35 ∨ temperature < -10 then "medium"
  else if jsIncludes weatherCondition "thunderstorm" || jsIncludes weatherCondition "blizzard" then
    "medium"
  else "low"

/-- `disasterService.isSevereWeather` (disasterService.js lines 309-339). -/
def isSevereWeather (w : WeatherData) : Bool :=
  let windSpeed := w.windSpeed.getD 0
  let temperature := w.temp
  let humidity := w.humidity
  let weatherCondition := jsToLower w.weatherMain
  let description := jsToLower w.weatherDescription
  if windSpeed > 13.9 then true
  else if temperature > 40 ∨ temperature < -20 then true
  else if (["thunderstorm", "tornado", "hurricane", "typhoon",
            "blizzard", "snowstorm", "sandstorm", "duststorm"] : List String).any
      (fun c => jsIncludes weatherCondition c || jsIncludes description c) then true
  else if jsIncludes description "heavy" || jsIncludes description "extreme" then true
  else if temperature > 30 ∧ humidity > 80 then true
  else false

/-- An observation with wind 14 m/s but extreme heat. -/
def hotWindObservation : WeatherData :=
  { windSpeed := some 14, temp := 50, humidity := 50,
    weatherMain := "Clear", weatherDescription := "clear sky" }

/-- C5 counterexample: wind speed 14 m/s does not force severity "high" -
with temperature 50 °C the critical rule fires first and the observation is
classified "critical". -/
theorem weatherSeverity_wind14_not_always_high :
    hotWindObservation.windSpeed.getD 0 = 14 ∧
    getWeatherSeverity hotWindObservation = "critical" ∧
    getWeatherSeverity hotWindObservation ≠ "high" := by
  have hcrit : getWeatherSeverity hotWindObservation = "critical" := by
    simp only [getWeatherSeverity, hotWindObservation, Option.getD_some]
    rw [if_pos (show (14 : ℚ) > 20.8 ∨ (50 : ℚ) > 45 ∨ (50 : ℚ) < -30 from
      Or.inr (Or.inl (by norm_num)))]
  exact ⟨rfl, hcrit, by rw [hcrit]; decide⟩

/-- C5 amended: `getWeatherSeverity` is a pure function of the wind speed,
temperature and condition strings (humidity and any other field is ignored),
and an observation with wind speed 14 m/s (exceeding 13.9) is classified
"high" provided no critical rule fires: temperature within (-30, 45] and
condition naming neither tornado nor hurricane. -/
theorem getWeatherSeverity_pure_and_wind14 (w w2 : WeatherData) :
    (w.windSpeed = w2.windSpeed → w.temp = w2.temp →
      w.weatherMain = w2.weatherMain → w.weatherDescription = w2.weatherDescription →
      getWeatherSeverity w = getWeatherSeverity w2) ∧
    (w.windSpeed.getD 0 = 14 → w.temp ≤ 45 → -30 ≤ w.temp →
      jsIncludes (jsToLower w.weatherMain) "tornado" = false →
      jsIncludes (jsToLower w.weatherMain) "hurricane" = false →
      getWeatherSeverity w = "high") := by
  constructor
  · intro h1 h2 h3 h4
    unfold getWeatherSeverity
    rw [h1, h2, h3, h4]
  · intro hwind htemp1 htemp2 htor hhur
    unfold getWeatherSeverity
    rw [hwind]
    rw [if_neg (by push_neg; refine ⟨by norm_num, by linarith, by linarith⟩)]
    rw [if_neg (by simp [htor, hhur])]
    rw [if_pos (Or.inl (by norm_num))]

/-- An unremarkable observation with wind exactly 14 m/s. -/
def mildWindObservation : WeatherData :=
  { windSpeed := some 14, temp := 20, humidity := 40,
    weatherMain := "Clear", weatherDescription := "clear sky" }

/-- Witness for the amended C5 theorem. -/
theorem getWeatherSeverity_pure_and_wind14_witness :
    getWeatherSeverity mildWindObservation = getWeatherSeverity mildWindObservation ∧
    getWeatherSeverity mildWindObservation = "high" :=
  ⟨(getWeatherSeverity_pure_and_wind14 mildWindObservation mildWindObservation).1
      rfl rfl rfl rfl,
   (getWeatherSeverity_pure_and_wind14 mildWindObservation mildWindObservation).2
      rfl (by norm_num [mildWindObservation]) (by norm_num [mildWindObservation])
      (by decide) (by decide)⟩

/-! ### C8 : naive trend from daily bucket totals (analyticsService.js) -/

/-- Mean of the first half of the value list (`values.slice(0, floor(n/2))`). -/
def firstHalfAvg (values : List ℚ) : ℚ :=
  let firstHalf := values.take (values.length / 2)
  firstHalf.sum / (firstHalf.length : ℚ)

/-- Mean of the second half of the value list (`values.slice(floor(n/2))`). -/
def secondHalfAvg (values : List ℚ) : ℚ :=
  let secondHalf := values.drop (values.length / 2)
  secondHalf.sum / (secondHalf.length : ℚ)

/-- `analyticsService.calculateTrend` (analyticsService.js lines 284-298).
When the first-half mean is zero, JavaScript computes
`change = (secondAvg - 0) / 0 * 100`, which is `Infinity` for positive
`secondAvg` (so `change > 10` holds), `-Infinity` for negative `secondAvg`,
and `NaN` for zero `secondAvg` (neither comparison holds); those branches
are spelled out here because rational division by zero returns zero. -/
def calculateTrend (values : List ℚ) : String :=
  if values.length < 2 then "stable"
  else
    let firstAvg := firstHalfAvg values
    let secondAvg := secondHalfAvg values
    if firstAvg = 0 then
      if 0 < secondAvg then "increasing"
      else if secondAvg < 0 then "decreasing"
      else "stable"
    else
      let change := (secondAvg - firstAvg) / firstAvg * 100
      if change > 10 then "increasing"
      else if change < -10 then "decreasing"
      else "stable"

/-- C8: on lists of fewer than two values the trend is "stable"; on longer
lists of non-negative bucket totals the result is "increasing" exactly when
the percent change of the half means exceeds +10 (in cross-multiplied form
`10·firstAvg < 100·(secondAvg − firstAvg)`, which also covers the JavaScript
`Infinity` case of a zero first-half mean), "decreasing" exactly when it is
below −10, and "stable" otherwise. -/
theorem calculateTrend_spec (values : List ℚ) (hnn : ∀ v ∈ values, 0 ≤ v) :
    (values.length < 2 → calculateTrend values = "stable") ∧
    (2 ≤ values.length →
      ((calculateTrend values = "increasing" ↔
          10 * firstHalfAvg values < 100 * (secondHalfAvg values - firstHalfAvg values)) ∧
       (calculateTrend values = "decreasing" ↔
          100 * (secondHalfAvg values - firstHalfAvg values) < -(10 * firstHalfAvg values)) ∧
       (calculateTrend values = "stable" ↔
          ¬(10 * firstHalfAvg values < 100 * (secondHalfAvg values - firstHalfAvg values)) ∧
          ¬(100 * (secondHalfAvg values - firstHalfAvg values) < -(10 * firstHalfAvg values))))) := by
  constructor
  · intro h
    unfold calculateTrend
    rw [if_pos h]
  · intro h
    have hlen : ¬ values.length < 2 := not_lt.mpr h
    have hf0 : 0 ≤ firstHalfAvg values := by
      unfold firstHalfAvg
      apply div_nonneg
      · exact List.sum_nonneg (fun x hx => hnn x (List.mem_of_mem_take hx))
      · positivity
    have key : calculateTrend values =
        (if 10 * firstHalfAvg values < 100 * (secondHalfAvg values - firstHalfAvg values)
         then "increasing"
         else if 100 * (secondHalfAvg values - firstHalfAvg values) < -(10 * firstHalfAvg values)
         then "decreasing"
         else "stable") := by
      unfold calculateTrend
      rw [if_neg hlen]
      simp only []
      by_cases hf : firstHalfAvg values = 0
      · rw [if_pos hf, hf]
        refine if_congr ?_ rfl (if_congr ?_ rfl rfl)
        · constructor <;> intro <;> linarith
        · constructor <;> intro <;> linarith
      · rw [if_neg hf]
        have hfpos : 0 < firstHalfAvg values := lt_of_le_of_ne hf0 (Ne.symm hf)
        refine if_congr ?_ rfl (if_congr ?_ rfl rfl)
        · rw [gt_iff_lt, div_mul_eq_mul_div, lt_div_iff₀ hfpos]
          constructor <;> intro <;> linarith
        · rw [div_mul_eq_mul_div, div_lt_iff₀ hfpos]
          constructor <;> intro <;> linarith
    rw [key]
    by_cases hP1 : 10 * firstHalfAvg values < 100 * (secondHalfAvg values - firstHalfAvg values)
    · rw [if_pos hP1]
      have hnP2 : ¬ (100 * (secondHalfAvg values - firstHalfAvg values) <
          -(10 * firstHalfAvg values)) := by intro; linarith
      exact ⟨iff_of_true rfl hP1, iff_of_false (by decide) hnP2,
        iff_of_false (by decide) (fun hc => hc.1 hP1)⟩
    · rw [if_neg hP1]
      by_cases hP2 : 100 * (secondHalfAvg values - firstHalfAvg values) <
          -(10 * firstHalfAvg values)
      · rw [if_pos hP2]
        exact ⟨iff_of_false (by decide) hP1, iff_of_true rfl hP2,
          iff_of_false (by decide) (fun hc => hc.2 hP2)⟩
      · rw [if_neg hP2]
        exact ⟨iff_of_false (by decide) hP1, iff_of_false (by decide) hP2,
          iff_of_true rfl ⟨hP1, hP2⟩⟩

/-- Witness for C8: totals [1, 2] double between halves, so "increasing". -/
theorem calculateTrend_spec_witness : calculateTrend [1, 2] = "increasing" :=
  (((calculateTrend_spec [1, 2] (by decide)).2 (by norm_num)).1).mpr
    (by norm_num [firstHalfAvg, secondHalfAvg])

/-! ### C9 : geographic hotspots on a 1-degree grid (analyticsService.js) -/

/-- A coordinate record passed to `identifyHotspots`:
`{ lat, lng, type, severity }` (severity may be absent). -/
structure GeoCoord where
  lat : ℚ
  lng : ℚ
  type : String
  severity : Option String

/-- `const gridSize = 1` (degrees). -/
def gridSize : ℚ := 1

/-- The grid cell of a coordinate:
`Math.floor(coord.lat / gridSize) * gridSize` for each axis; with
`gridSize = 1` the product leaves the integer floor unchanged, so the cell
is the pair of floors. -/
def gridCellOf (c : GeoCoord) : ℤ × ℤ :=
  (⌊c.lat / gridSize⌋, ⌊c.lng / gridSize⌋)

/-- `severityScores[d.severity] || 1`. -/
def severityScore : Option String → ℚ
  | some "low" => 1
  | some "medium" => 2
  | some "high" => 3
  | some "critical" => 4
  | _ => 1

/-- `analyticsService.calculateCellSeverity` (lines 340-349). -/
def calculateCellSeverity (ds : List GeoCoord) : String :=
  let totalScore := (ds.map (fun d => severityScore d.severity)).sum
  let avgScore := totalScore / (ds.length : ℚ)
  if avgScore ≥ 3.5 then "critical"
  else if avgScore ≥ 2.5 then "high"
  else if avgScore ≥ 1.5 then "medium"
  else "low"

/-- An entry of the list returned by `identifyHotspots`. -/
structure Hotspot where
  lat : ℤ
  lng : ℤ
  count : ℕ
  severity : String

/-- Number of input coordinates falling in a grid cell (`grid[key].count`). -/
def cellCount (coords : List GeoCoord) (cell : ℤ × ℤ) : ℕ :=
  (coords.filter (fun c => gridCellOf c == cell)).length

/-- First-occurrence deduplication of the cell keys, mirroring the insertion
order of the JavaScript object used as the grid map. -/
def dedupKeys : List (ℤ × ℤ) → List (ℤ × ℤ)
  | [] => []
  | k :: ks => k :: (dedupKeys ks).filter (fun x => x != k)

/-- `analyticsService.identifyHotspots` (lines 308-338): bucket the
coordinates by 1°×1° cell, then keep every cell with at least 3 events,
reporting the cell, its event count and its aggregate severity. -/
def identifyHotspots (coordinates : List GeoCoord) : List Hotspot :=
  let cells := dedupKeys (coordinates.map gridCellOf)
  cells.filterMap (fun cell =>
    let ds := coordinates.filter (fun c => gridCellOf c == cell)
    if 3 ≤ ds.length then
      some { lat := cell.1, lng := cell.2, count := ds.length,
             severity := calculateCellSeverity ds }
    else none)

theorem mem_dedupKeys (x : ℤ × ℤ) (l : List (ℤ × ℤ)) : x ∈ dedupKeys l ↔ x ∈ l := by
  induction l with
  | nil => simp [dedupKeys]
  | cons k ks ih =>
    simp only [dedupKeys, List.mem_cons, List.mem_filter, ih, bne_iff_ne, ne_eq]
    constructor
    · rintro (h | ⟨h, _⟩)
      · exact Or.inl h
      · exact Or.inr h
    · rintro (h | h)
      · exact Or.inl h
      · by_cases hx : x = k
        · exact Or.inl hx
        · exact Or.inr ⟨h, hx⟩

/-- C9: every returned hotspot reports a cell with at least 3 events and its
exact event count, and every 1°×1° cell containing at least 3 of the input
events appears among the returned hotspots. -/
theorem identifyHotspots_spec (coords : List GeoCoord) :
    (∀ h ∈ identifyHotspots coords,
      3 ≤ h.count ∧ h.count = cellCount coords (h.lat, h.lng)) ∧
    (∀ cell : ℤ × ℤ, 3 ≤ cellCount coords cell →
      ∃ h ∈ identifyHotspots coords,
        h.lat = cell.1 ∧ h.lng = cell.2 ∧ h.count = cellCount coords cell) := by
  constructor
  · intro hsp hmem
    obtain ⟨cell, _hcell, hfx⟩ := List.mem_filterMap.mp hmem
    simp only [] at hfx
    by_cases hge : 3 ≤ (coords.filter (fun c => gridCellOf c == cell)).length
    · rw [if_pos hge] at hfx
      cases hfx
      exact ⟨hge, by simp [cellCount]⟩
    · rw [if_neg hge] at hfx
      cases hfx
  · intro cell hge
    have hge' : 3 ≤ (coords.filter (fun c => gridCellOf c == cell)).length := hge
    have hpos : 0 < (coords.filter (fun c => gridCellOf c == cell)).length := by omega
    obtain ⟨c, hcmem⟩ := List.exists_mem_of_length_pos hpos
    obtain ⟨hcin, hcbeq⟩ := List.mem_filter.mp hcmem
    have hccell : gridCellOf c = cell := by
      exact beq_iff_eq.mp hcbeq
    have hcells : cell ∈ dedupKeys (coords.map gridCellOf) :=
      (mem_dedupKeys cell _).mpr (List.mem_map.mpr ⟨c, hcin, hccell⟩)
    refine ⟨{ lat := cell.1, lng := cell.2,
              count := (coords.filter (fun c => gridCellOf c == cell)).length,
              severity := calculateCellSeverity
                (coords.filter (fun c => gridCellOf c == cell)) }, ?_, rfl, rfl, rfl⟩
    apply List.mem_filterMap.mpr
    refine ⟨cell, hcells, ?_⟩
    simp only []
    rw [if_pos hge']

/-- Three events inside the cell (0, 0). -/
def sampleCoords : List GeoCoord :=
  [{ lat := 0.5, lng := 0.5, type := "earthquake", severity := some "high" },
   { lat := 0.2, lng := 0.9, type := "earthquake", severity := none },
   { lat := 0.7, lng := 0.1, type := "weather", severity := some "low" }]

theorem sampleCellCount : cellCount sampleCoords (0, 0) = 3 := by
  norm_num [cellCount, sampleCoords, gridCellOf, gridSize, List.filter,
    Prod.mk.injEq, beq_iff_eq]

/-- Witness for C9 at the three-event store. -/
theorem identifyHotspots_spec_witness :
    ∃ h ∈ identifyHotspots sampleCoords,
      h.lat = ((0 : ℤ), (0 : ℤ)).1 ∧ h.lng = ((0 : ℤ), (0 : ℤ)).2 ∧
      h.count = cellCount sampleCoords ((0 : ℤ), (0 : ℤ)) :=
  (identifyHotspots_spec sampleCoords).2 ((0 : ℤ), (0 : ℤ))
    (by rw [sampleCellCount])

/-! ### C4 : feed aggregation (disasterService.getAllDisasters) -/

/-- A normalized disaster record as far as the aggregator's sort reads it:
an identity and the `time` field.  Earthquake and tsunami records carry a
`time`; weather alerts and volcanic records have no `time` key, modelled as
`none`. -/
structure DisasterRecord where
  rid : String
  time : Option ℤ
deriving DecidableEq

/-- Outcome of one feed inside `Promise.allSettled`: the promise rejected,
or it fulfilled with `success:false`, or it fulfilled with `success:true`
and a record list. -/
inductive FeedResult where
  | rejected (err : String)
  | failed (err : String)
  | fulfilled (data : List DisasterRecord)
deriving DecidableEq

/-- The records the aggregator takes from a feed outcome (nothing unless
fulfilled with success). -/
def FeedResult.records : FeedResult → List DisasterRecord
  | .fulfilled data => data
  | _ => []

/-- Whether the feed rejected or reported failure. -/
def FeedResult.isFailed : FeedResult → Bool
  | .fulfilled _ => false
  | _ => true

/-- The sort comparator `(a, b) => new Date(b.time) - new Date(a.time)`
expressed as the "may keep `a` before `b`" relation: the comparator value is
not positive.  When either record lacks a `time` field, `new Date(undefined)`
is an invalid date whose numeric value is NaN; a NaN comparator value is not
positive either (V8 treats it like 0), so the pair keeps its original order. -/
def timeLe (a b : DisasterRecord) : Bool :=
  match a.time, b.time with
  | some ta, some tb => tb ≤ ta
  | _, _ => true

/-- The value returned by `getAllDisasters`. -/
structure DisastersResult where
  success : Bool
  data : List DisasterRecord
  count : ℕ
deriving DecidableEq

/-- `disasterService.getAllDisasters` (disasterService.js lines 252-295):
fan out the four feeds with `Promise.allSettled`, concatenate the record
lists of the fulfilled-and-successful ones in feed order, and sort with the
descending-time comparator (`Array.prototype.sort` modelled as a stable
merge sort). -/
def getAllDisasters (earthquakes weatherAlerts tsunamiWarnings volcanicActivity :
    FeedResult) : DisastersResult :=
  let allDisasters := earthquakes.records ++ weatherAlerts.records ++
    tsunamiWarnings.records ++ volcanicActivity.records
  let sorted := allDisasters.mergeSort timeLe
  { success := true, data := sorted, count := sorted.length }

/-- Descending order of the `time` fields: no later record with a `time`
strictly newer than an earlier record's `time`. -/
def sortedByTimeDesc (l : List DisasterRecord) : Prop :=
  l.Pairwise (fun a b => ∀ ta tb, a.time = some ta → b.time = some tb → tb ≤ ta)

/-- An earthquake record from the start of the window. -/
def eqRecOld : DisasterRecord := { rid := "eq1", time := some 1 }

/-- A weather alert (no `time` field). -/
def wxRec1 : DisasterRecord := { rid := "wx1", time := none }

/-- A second weather alert (no `time` field). -/
def wxRec2 : DisasterRecord := { rid := "wx2", time := none }

/-- A tsunami record newer than the earthquake. -/
def tsRecNew : DisasterRecord := { rid := "ts5", time := some 5 }

/-- The aggregation in which the volcanic feed rejects and the other three
succeed. -/
def brokenAggregation : DisastersResult :=
  getAllDisasters (.fulfilled [eqRecOld]) (.fulfilled [wxRec1, wxRec2])
    (.fulfilled [tsRecNew]) (.rejected "network error")

unseal List.merge List.mergeSort in
/-- C4 counterexample: with exactly one feed rejected and three successful,
the result is the union of the three feeds' records, but it is not sorted in
descending time order: the weather records carry no `time` field, their
comparator value is NaN, and the earthquake with time 1 stays ahead of the
tsunami record with time 5. -/
theorem getAllDisasters_not_sorted_with_untimed :
    (FeedResult.rejected "network error").isFailed = true ∧
    (FeedResult.fulfilled [eqRecOld]).isFailed = false ∧
    (FeedResult.fulfilled [wxRec1, wxRec2]).isFailed = false ∧
    (FeedResult.fulfilled [tsRecNew]).isFailed = false ∧
    brokenAggregation.success = true ∧
    brokenAggregation.data = [eqRecOld, wxRec1, wxRec2, tsRecNew] ∧
    eqRecOld.time = some 1 ∧ tsRecNew.time = some 5 ∧
    ¬ sortedByTimeDesc brokenAggregation.data := by
  have hdata : brokenAggregation.data = [eqRecOld, wxRec1, wxRec2, tsRecNew] := by decide
  refine ⟨rfl, rfl, rfl, rfl, rfl, hdata, rfl, rfl, ?_⟩
  intro hsort
  rw [hdata] at hsort
  unfold sortedByTimeDesc at hsort
  have h := (List.pairwise_cons.mp hsort).1 tsRecNew (by simp)
  have h15 := h 1 5 rfl rfl
  omega

theorem merge_pairwise_of_mem {α : Type} (le : α → α → Bool) (P : α → Prop)
    (htrans : ∀ a b c, P a → P b → P c → le a b = true → le b c = true → le a c = true)
    (htotal : ∀ a b, P a → P b → (le a b || le b a) = true) :
    ∀ (l₁ l₂ : List α), (∀ a ∈ l₁, P a) → (∀ a ∈ l₂, P a) →
      l₁.Pairwise (fun a b => le a b = true) → l₂.Pairwise (fun a b => le a b = true) →
      (List.merge l₁ l₂ le).Pairwise (fun a b => le a b = true)
  | [], l₂, _, _, _, s₂ => by simpa using s₂
  | x :: xs, [], _, _, s₁, _ => by simpa using s₁
  | x :: xs, y :: ys, h₁, h₂, s₁, s₂ => by
    rw [List.cons_merge_cons]
    by_cases hxy : le x y = true
    · rw [if_pos hxy]
      refine List.pairwise_cons.mpr ⟨?_, ?_⟩
      · intro z hz
        rcases List.mem_merge.mp hz with hz | hz
        · exact (List.pairwise_cons.mp s₁).1 z hz
        · rcases List.mem_cons.mp hz with rfl | hz
          · exact hxy
          · exact htrans x y z (h₁ x (by simp)) (h₂ y (by simp)) (h₂ z (by simp [hz]))
              hxy ((List.pairwise_cons.mp s₂).1 z hz)
      · exact merge_pairwise_of_mem le P htrans htotal xs (y :: ys)
          (fun a ha => h₁ a (by simp [ha])) h₂ (List.pairwise_cons.mp s₁).2 s₂
    · rw [if_neg hxy]
      have hyx : le y x = true := by
        have ht := htotal x y (h₁ x (by simp)) (h₂ y (by simp))
        rcases Bool.or_eq_true_iff.mp ht with h | h
        · exact absurd h hxy
        · exact h
      refine List.pairwise_cons.mpr ⟨?_, ?_⟩
      · intro z hz
        rcases List.mem_merge.mp hz with hz | hz
        · rcases List.mem_cons.mp hz with rfl | hz
          · exact hyx
          · exact htrans y x z (h₂ y (by simp)) (h₁ x (by simp)) (h₁ z (by simp [hz]))
              hyx ((List.pairwise_cons.mp s₁).1 z hz)
        · exact (List.pairwise_cons.mp s₂).1 z hz
      · exact merge_pairwise_of_mem le P htrans htotal (x :: xs) ys
          h₁ (fun a ha => h₂ a (by simp [ha])) s₁ (List.pairwise_cons.mp s₂).2
  termination_by l₁ l₂ => l₁.length + l₂.length

theorem mergeSort_pairwise_of_mem {α : Type} (le : α → α → Bool) (P : α → Prop)
    (htrans : ∀ a b c, P a → P b → P c → le a b = true → le b c = true → le a c = true)
    (htotal : ∀ a b, P a → P b → (le a b || le b a) = true) :
    ∀ (l : List α), (∀ a ∈ l, P a) →
      (List.mergeSort l le).Pairwise (fun a b => le a b = true)
  | [], _ => by simp
  | [a], _ => by simp
  | a :: b :: xs, h => by
    have hlen1 : (List.splitInTwo ⟨a :: b :: xs, rfl⟩).1.1.length < xs.length + 1 + 1 := by
      simp [List.splitInTwo_fst]; omega
    have hlen2 : (List.splitInTwo ⟨a :: b :: xs, rfl⟩).2.1.length < xs.length + 1 + 1 := by
      simp [List.splitInTwo_snd]; omega
    have hmem1 : ∀ z ∈ (List.splitInTwo ⟨a :: b :: xs, rfl⟩).1.1, P z := by
      intro z hz
      rw [List.splitInTwo_fst] at hz
      exact h z (List.mem_of_mem_take hz)
    have hmem2 : ∀ z ∈ (List.splitInTwo ⟨a :: b :: xs, rfl⟩).2.1, P z := by
      intro z hz
      rw [List.splitInTwo_snd] at hz
      exact h z (List.mem_of_mem_drop hz)
    rw [List.mergeSort]
    apply merge_pairwise_of_mem le P htrans htotal
    · intro z hz
      exact hmem1 z (List.mem_mergeSort.mp hz)
    · intro z hz
      exact hmem2 z (List.mem_mergeSort.mp hz)
    · exact mergeSort_pairwise_of_mem le P htrans htotal _ hmem1
    · exact mergeSort_pairwise_of_mem le P htrans htotal _ hmem2
  termination_by l => l.length

/-- C4 amended: when exactly one feed rejects or reports failure and the
other three succeed, the result is a success whose data is a permutation of
the concatenation of the three successful feeds' records (a failed feed
contributes nothing), with `count` equal to its length; and whenever every
aggregated record carries a `time` field (as earthquake and tsunami records
do), the data is sorted in descending time order.  With untimed records
(weather, volcanic) the comparator value is NaN and descending order can
fail, as `getAllDisasters_not_sorted_with_untimed` shows. -/
theorem getAllDisasters_union_of_successes (f1 f2 f3 f4 : FeedResult)
    (_h : f1.isFailed.toNat + f2.isFailed.toNat + f3.isFailed.toNat + f4.isFailed.toNat = 1) :
    (getAllDisasters f1 f2 f3 f4).success = true ∧
    (getAllDisasters f1 f2 f3 f4).data.Perm
      (f1.records ++ f2.records ++ f3.records ++ f4.records) ∧
    (getAllDisasters f1 f2 f3 f4).count =
      (f1.records ++ f2.records ++ f3.records ++ f4.records).length ∧
    ((∀ r ∈ f1.records ++ f2.records ++ f3.records ++ f4.records, r.time.isSome = true) →
      sortedByTimeDesc (getAllDisasters f1 f2 f3 f4).data) := by
  refine ⟨rfl, ?_, ?_, ?_⟩
  · simp only [getAllDisasters]
    exact List.mergeSort_perm _ _
  · simp [getAllDisasters]
  · intro hall
    have hpw := mergeSort_pairwise_of_mem timeLe (fun r => r.time.isSome = true)
      ?_ ?_ (f1.records ++ f2.records ++ f3.records ++ f4.records) hall
    · unfold sortedByTimeDesc
      simp only [getAllDisasters]
      refine List.Pairwise.imp ?_ hpw
      intro a b hab ta tb hta htb
      simp only [timeLe, hta, htb, decide_eq_true_eq] at hab
      exact hab
    · intro a b c hpa hpb hpc hab hbc
      obtain ⟨ta, hta⟩ := Option.isSome_iff_exists.mp hpa
      obtain ⟨tb, htb⟩ := Option.isSome_iff_exists.mp hpb
      obtain ⟨tc, htc⟩ := Option.isSome_iff_exists.mp hpc
      simp only [timeLe, hta, htb, htc, decide_eq_true_eq] at hab hbc ⊢
      omega
    · intro a b hpa hpb
      obtain ⟨ta, hta⟩ := Option.isSome_iff_exists.mp hpa
      obtain ⟨tb, htb⟩ := Option.isSome_iff_exists.mp hpb
      simp only [timeLe, hta, htb, Bool.or_eq_true, decide_eq_true_eq]
      omega

unseal List.merge List.mergeSort in
/-- Witness for the amended C4 theorem: tsunami feed and earthquake feed
succeed with one timed record each, the weather feed rejects, the volcanic
feed succeeds empty. -/
theorem getAllDisasters_union_of_successes_witness :
    (getAllDisasters (.fulfilled [tsRecNew]) (.rejected "offline")
        (.fulfilled [eqRecOld]) (.fulfilled [])).success = true ∧
    (getAllDisasters (.fulfilled [tsRecNew]) (.rejected "offline")
        (.fulfilled [eqRecOld]) (.fulfilled [])).data.Perm
      ((FeedResult.fulfilled [tsRecNew]).records ++
        (FeedResult.rejected "offline").records ++
        (FeedResult.fulfilled [eqRecOld]).records ++
        (FeedResult.fulfilled ([] : List DisasterRecord)).records) ∧
    (getAllDisasters (.fulfilled [tsRecNew]) (.rejected "offline")
        (.fulfilled [eqRecOld]) (.fulfilled [])).count =
      ((FeedResult.fulfilled [tsRecNew]).records ++
        (FeedResult.rejected "offline").records ++
        (FeedResult.fulfilled [eqRecOld]).records ++
        (FeedResult.fulfilled ([] : List DisasterRecord)).records).length ∧
    ((∀ r ∈ (FeedResult.fulfilled [tsRecNew]).records ++
        (FeedResult.rejected "offline").records ++
        (FeedResult.fulfilled [eqRecOld]).records ++
        (FeedResult.fulfilled ([] : List DisasterRecord)).records, r.time.isSome = true) →
      sortedByTimeDesc (getAllDisasters (.fulfilled [tsRecNew]) (.rejected "offline")
        (.fulfilled [eqRecOld]) (.fulfilled [])).data) :=
  getAllDisasters_union_of_successes (.fulfilled [tsRecNew]) (.rejected "offline")
    (.fulfilled [eqRecOld]) (.fulfilled []) (by decide)
